import Mathlib

/-!
Shallow embedding of the inference core of the breast-cancer risk
prediction site: the ensemble combiner (services/inference.py), the
feature vectorizer (services/preprocess.py), and the model registry with
its fake models and output adapters (services/registry.py).

Python floats are modelled as rationals; a float NaN that arises from a
degenerate computation (mean of an empty array) is modelled as
Option.none. Python exceptions are modelled with an explicit exception
type and Except. Mutable class-level registry state is modelled by
explicit state passing, with a construction counter so that distinct
constructions are distinguishable.
-/

namespace BreastRisk

/-- Python float modulo with a positive divisor: x - d * floor (x / d).
For finite x and d > 0 the result lies in [0, d), matching CPython. -/
def pymod (x d : ℚ) : ℚ := x - d * (⌊x / d⌋ : ℤ)

theorem pymod_nonneg (x d : ℚ) (hd : 0 < d) : 0 ≤ pymod x d := by
  have h1 : ((⌊x / d⌋ : ℤ) : ℚ) ≤ x / d := Int.floor_le (x / d)
  have h2 : ((⌊x / d⌋ : ℤ) : ℚ) * d ≤ x := (le_div_iff₀ hd).mp h1
  unfold pymod
  nlinarith

theorem pymod_lt (x d : ℚ) (hd : 0 < d) : pymod x d < d := by
  have h1 : x / d < (⌊x / d⌋ : ℤ) + 1 := Int.lt_floor_add_one (x / d)
  have h2 : x < ((⌊x / d⌋ : ℤ) + 1) * d := (div_lt_iff₀ hd).mp h1
  unfold pymod
  nlinarith

/-- Result record of the ensemble combiner, mirroring the frozen dataclass
EnsembleResult in services/inference.py. -/
structure EnsembleResult where
  p_img : ℚ
  p_factors : ℚ
  p_ensemble : ℚ
  img_weight : ℚ
  factors_weight : ℚ
deriving Repr, DecidableEq

/-- Embeds ensemble from services/inference.py. The configured settings
IMG_WEIGHT and FACT_WEIGHT are passed as the first two parameters.
The code computes w_img * p_img + w_fac * p_factors and returns the
record; it performs no clamping and no weight normalization. -/
def ensemble (w_img w_fac p_img p_factors : ℚ) : EnsembleResult :=
  { p_img := p_img
    p_factors := p_factors
    p_ensemble := w_img * p_img + w_fac * p_factors
    img_weight := w_img
    factors_weight := w_fac }

/-- C1 counterexample: with the default configured weights 0.7 / 0.3 and
input probabilities 2.0 and 2.0 (outside [0,1], as the claim allows), the
blended probability is 2.0, which is not in [0.0, 1.0]: the code performs
no clamping. -/
theorem ensemble_not_clamped_cex :
    (ensemble (7/10) (3/10) 2 2).p_ensemble = 2 ∧
      ¬ (ensemble (7/10) (3/10) 2 2).p_ensemble ≤ 1 := by
  constructor
  · norm_num [ensemble]
  · norm_num [ensemble]

/-- C1 amended: the ensemble output is the unclamped affine blend
w_img * p_img + w_fac * p_factors, so it lies in [0.0, 1.0] whenever both
input probabilities lie in [0,1], both configured weights are nonnegative
and the weights sum to at most 1 (as the defaults 0.7 / 0.3 do); for
inputs or weights outside those ranges it can leave [0,1]. -/
theorem ensemble_bounds_of_subunit_weights
    (w_img w_fac p_img p_factors : ℚ)
    (hw1 : 0 ≤ w_img) (hw2 : 0 ≤ w_fac) (hws : w_img + w_fac ≤ 1)
    (hp1 : 0 ≤ p_img) (hp1u : p_img ≤ 1)
    (hp2 : 0 ≤ p_factors) (hp2u : p_factors ≤ 1) :
    0 ≤ (ensemble w_img w_fac p_img p_factors).p_ensemble ∧
      (ensemble w_img w_fac p_img p_factors).p_ensemble ≤ 1 := by
  constructor
  · simp only [ensemble]
    positivity
  · simp only [ensemble]
    nlinarith

/-- Witness for the amended C1 theorem at the default weights and
probabilities 1/2, 1/2. -/
theorem ensemble_bounds_of_subunit_weights_witness :
    0 ≤ (ensemble (7/10) (3/10) (1/2) (1/2)).p_ensemble ∧
      (ensemble (7/10) (3/10) (1/2) (1/2)).p_ensemble ≤ 1 :=
  ensemble_bounds_of_subunit_weights (7/10) (3/10) (1/2) (1/2)
    (by norm_num) (by norm_num) (by norm_num)
    (by norm_num) (by norm_num) (by norm_num) (by norm_num)

/-- C2 counterexample: with strictly positive configured weights 0.5 and
0.25, the returned weight fields are the configured values unchanged and
sum to 0.75, not 1.0: the code neither clamps nor normalizes weights. -/
theorem ensemble_weights_not_normalized_cex :
    (ensemble (1/2) (1/4) 0 0).img_weight
        + (ensemble (1/2) (1/4) 0 0).factors_weight = 3/4 ∧
      ¬ (ensemble (1/2) (1/4) 0 0).img_weight
        + (ensemble (1/2) (1/4) 0 0).factors_weight = 1 := by
  constructor
  · norm_num [ensemble]
  · norm_num [ensemble]

/-- C2 amended: the combine operation passes both configured weights
through unchanged into the returned record (no clamping of negative
weights, no normalization), so the returned weight fields sum to 1.0
exactly when the configured weights already do. -/
theorem ensemble_weights_passthrough
    (w_img w_fac p_img p_factors : ℚ) :
    (ensemble w_img w_fac p_img p_factors).img_weight = w_img ∧
      (ensemble w_img w_fac p_img p_factors).factors_weight = w_fac ∧
      ((ensemble w_img w_fac p_img p_factors).img_weight
          + (ensemble w_img w_fac p_img p_factors).factors_weight = 1
        ↔ w_img + w_fac = 1) := by
  refine ⟨rfl, rfl, ?_⟩
  simp [ensemble]

/-- C3: with both configured weights zero, the combiner is total (the code
contains no division at all, hence no division-by-zero), both returned
weight fields are 0, the blended probability is 0 * p_img + 0 * p_factors
= 0, and every field is the defined rational value shown. -/
theorem ensemble_zero_weights (p_img p_factors : ℚ) :
    ensemble 0 0 p_img p_factors =
      { p_img := p_img, p_factors := p_factors, p_ensemble := 0,
        img_weight := 0, factors_weight := 0 } := by
  simp [ensemble]

/-- Risk-factor record, mirroring the frozen dataclass RiskFactors in
predictor/schemas.py: two required fields, integer-coded categorical/flag
fields with default 0, and optional numeric fields defaulting to None. -/
structure RiskFactors where
  age : ℚ
  first_degree_relative : ℤ
  onset_age_relative : Option ℚ := none
  brca1 : ℤ := 0
  brca2 : ℤ := 0
  menarche_age : Option ℚ := none
  menopause_age : Option ℚ := none
  parity : Option ℚ := none
  hrt : ℤ := 0
  bmi : Option ℚ := none
  alcohol_units_per_week : Option ℚ := none
  smoking_status : ℤ := 0
  activity_hours_per_week : Option ℚ := none
deriving Repr, DecidableEq

/-- Embeds the Python idiom (value or 0.0) used in risk_factors_to_vector:
None is falsy and maps to 0.0, and a present 0.0 is also falsy and maps to
0.0 (the same number), so numerically this equals Option.getD 0. -/
def pyOrZero : Option ℚ → ℚ
  | none => 0
  | some v => if v = 0 then 0 else v

theorem pyOrZero_eq_getD (o : Option ℚ) : pyOrZero o = o.getD 0 := by
  cases o with
  | none => rfl
  | some v =>
      by_cases h : v = 0 <;> simp [pyOrZero, h]

/-- Embeds risk_factors_to_vector from services/preprocess.py: builds the
13-element feature row in the fixed documented order and returns it with a
leading batch dimension (the Python code returns v[None, :], an array of
shape (1, 13)). -/
def risk_factors_to_vector (rf : RiskFactors) : List (List ℚ) :=
  [[rf.age,
    (rf.first_degree_relative : ℚ),
    pyOrZero rf.onset_age_relative,
    (rf.brca1 : ℚ),
    (rf.brca2 : ℚ),
    pyOrZero rf.menarche_age,
    pyOrZero rf.menopause_age,
    pyOrZero rf.parity,
    (rf.hrt : ℚ),
    pyOrZero rf.bmi,
    pyOrZero rf.alcohol_units_per_week,
    (rf.smoking_status : ℚ),
    pyOrZero rf.activity_hours_per_week]]

/-- C4: vectorization is total (the Lean embedding is a total function,
as the Python code contains no fallible operation), always yields a single
row of exactly 13 elements, in the fixed order age, first_degree_relative,
onset_age_relative, brca1, brca2, menarche_age, menopause_age, parity,
hrt, bmi, alcohol_units_per_week, smoking_status,
activity_hours_per_week, and every absent optional field contributes 0.0
(each optional position equals Option.getD 0 of its field, which is 0 when
the field is none). -/
theorem risk_factors_to_vector_spec (rf : RiskFactors) :
    (risk_factors_to_vector rf).length = 1 ∧
    ((risk_factors_to_vector rf).headD []).length = 13 ∧
    ((risk_factors_to_vector rf).headD []).getD 0 0 = rf.age ∧
    ((risk_factors_to_vector rf).headD []).getD 1 0
      = (rf.first_degree_relative : ℚ) ∧
    ((risk_factors_to_vector rf).headD []).getD 2 0
      = rf.onset_age_relative.getD 0 ∧
    ((risk_factors_to_vector rf).headD []).getD 3 0 = (rf.brca1 : ℚ) ∧
    ((risk_factors_to_vector rf).headD []).getD 4 0 = (rf.brca2 : ℚ) ∧
    ((risk_factors_to_vector rf).headD []).getD 5 0
      = rf.menarche_age.getD 0 ∧
    ((risk_factors_to_vector rf).headD []).getD 6 0
      = rf.menopause_age.getD 0 ∧
    ((risk_factors_to_vector rf).headD []).getD 7 0 = rf.parity.getD 0 ∧
    ((risk_factors_to_vector rf).headD []).getD 8 0 = (rf.hrt : ℚ) ∧
    ((risk_factors_to_vector rf).headD []).getD 9 0 = rf.bmi.getD 0 ∧
    ((risk_factors_to_vector rf).headD []).getD 10 0
      = rf.alcohol_units_per_week.getD 0 ∧
    ((risk_factors_to_vector rf).headD []).getD 11 0
      = (rf.smoking_status : ℚ) ∧
    ((risk_factors_to_vector rf).headD []).getD 12 0
      = rf.activity_hours_per_week.getD 0 := by
  simp [risk_factors_to_vector, pyOrZero_eq_getD]

/-- Nested-list model of a (rectangular) numpy ndarray of floats. -/
inductive NDArray where
  | scalar (v : ℚ)
  | arr (elems : List NDArray)

/-- Number of dimensions, as numpy infers it from nesting depth (the
depth along the first element, 0 for a scalar, 1 for an empty list). -/
def NDArray.ndim : NDArray → ℕ
  | .scalar _ => 0
  | .arr [] => 1
  | .arr (t :: _) => 1 + t.ndim

mutual

/-- Sum of all scalar entries, as np.sum (empty sum is 0). -/
def NDArray.sumq : NDArray → ℚ
  | .scalar v => v
  | .arr l => NDArray.sumqList l

def NDArray.sumqList : List NDArray → ℚ
  | [] => 0
  | t :: ts => NDArray.sumq t + NDArray.sumqList ts

end

mutual

/-- Number of scalar entries. -/
def NDArray.count : NDArray → ℕ
  | .scalar _ => 1
  | .arr l => NDArray.countList l

def NDArray.countList : List NDArray → ℕ
  | [] => 0
  | t :: ts => NDArray.count t + NDArray.countList ts

end

/-- Mean of all entries, as np.mean; the mean of an empty array is NaN in
numpy, modelled here as none. -/
def NDArray.mean (x : NDArray) : Option ℚ :=
  if x.count = 0 then none else some (x.sumq / x.count)

/-- Indexing x[0] along the first axis; fails (numpy IndexError) when the
first axis is empty or x is a scalar. -/
def NDArray.getFirst : NDArray → Option NDArray
  | .arr (t :: _) => some t
  | _ => none

/-- Embeds FakeImageModel.predict_proba from services/registry.py: if the
input has 4 dimensions it is reduced to its first sample, then the result
is (mean of the entries mod 100.0) / 100.0. A none result models a float
NaN (mean of an empty array). -/
def FakeImageModel.predict_proba (X : NDArray) : Option ℚ :=
  match (if X.ndim = 4 then X.getFirst else some X) with
  | none => none
  | some x =>
      match x.mean with
      | none => none
      | some m => some (pymod m 100 / 100)

/-- Embeds FakeRiskModel.predict_proba from services/registry.py: if the
input has more than 1 dimension it is reduced to its first row, then the
result is min(0.99, 0.2 + 0.01 * (sum of entries mod 50)). -/
def FakeRiskModel.predict_proba (X : NDArray) : Option ℚ :=
  match (if 1 < X.ndim then X.getFirst else some X) with
  | none => none
  | some x => some (min (99/100) (2/10 + (1/100) * pymod x.sumq 50))

/-- Python exceptions relevant to the inference core. The code under
services/ raises only fileNotFoundError (registry, missing risk model)
and, via numpy indexing, indexError; modelNotFoundError and
adapterShapeError are the typed errors named by the spec taxonomy, which
the code never constructs. -/
inductive PyExc where
  | fileNotFoundError (msg : String)
  | modelNotFoundError (msg : String)
  | indexError (msg : String)
  | adapterShapeError (msg : String)
deriving Repr, DecidableEq

/-- Tests whether an exception is the spec taxonomy AdapterShapeError. -/
def PyExc.isAdapterShapeError : PyExc → Bool
  | .adapterShapeError _ => true
  | _ => false

/-- Tests whether an exception is the spec taxonomy ModelNotFoundError. -/
def PyExc.isModelNotFoundError : PyExc → Bool
  | .modelNotFoundError _ => true
  | _ => false

/-- Numpy-style 2-d element access y[i, j] on a matrix: out-of-bounds
indices raise IndexError. -/
def npGet2 (y : List (List ℚ)) (i j : ℕ) : Except PyExc ℚ :=
  match y.get? i with
  | none => Except.error (PyExc.indexError "index out of bounds for axis 0")
  | some row =>
      match row.get? j with
      | none =>
          Except.error (PyExc.indexError "index out of bounds for axis 1")
      | some v => Except.ok v

/-- Embeds the output-adaptation step of _WrapKerasSoftmax.predict_proba
from services/registry.py: given the wrapped Keras model native
prediction y (one row of class probabilities per sample), the adapter
returns float(y[0, 1]). The input-reshaping step (adding a batch
dimension to a rank-3 tensor) happens before the wrapped model runs and
does not affect this step. -/
def wrapKerasSoftmax_predict_proba (y : List (List ℚ)) : Except PyExc ℚ :=
  npGet2 y 0 1

/-- Embeds the output-adaptation step of _WrapSklearnBinary.predict_proba
from services/registry.py: given the wrapped sklearn model predict_proba
output, the adapter returns float(proba[0, 1]). -/
def wrapSklearnBinary_predict_proba (proba : List (List ℚ)) :
    Except PyExc ℚ :=
  npGet2 proba 0 1

/-- C8 counterexample: on a native prediction with a single column (the
shape-contract violation named by the claim), the adapter fails with a
numpy IndexError from the expression y[0, 1], not with a typed
AdapterShapeError; no AdapterShapeError type exists in the code. -/
theorem adapter_shape_violation_not_typed_cex :
    wrapKerasSoftmax_predict_proba [[1/2]]
        = Except.error (PyExc.indexError "index out of bounds for axis 1") ∧
      PyExc.isAdapterShapeError
          (PyExc.indexError "index out of bounds for axis 1") = false := by
  constructor
  · rfl
  · rfl

/-- C8 amended: both adapters read column index 1 of row 0 of the native
prediction. When the two-column row contract holds (row 0 exists and has
a column 1) they return that entry; when it is violated they fail with an
untyped numpy IndexError, not with a typed AdapterShapeError. -/
theorem adapter_predict_proba_shape (y : List (List ℚ)) :
    (∃ row v, y.get? 0 = some row ∧ row.get? 1 = some v ∧
        wrapKerasSoftmax_predict_proba y = Except.ok v ∧
        wrapSklearnBinary_predict_proba y = Except.ok v) ∨
    ((y.get? 0 = none ∨ ∃ row, y.get? 0 = some row ∧ row.get? 1 = none) ∧
      ∃ msg,
        wrapKerasSoftmax_predict_proba y
            = Except.error (PyExc.indexError msg) ∧
          wrapSklearnBinary_predict_proba y
            = Except.error (PyExc.indexError msg)) := by
  cases h0 : y.get? 0 with
  | none =>
      right
      refine ⟨Or.inl rfl, "index out of bounds for axis 0", ?_, ?_⟩ <;>
        simp only [wrapKerasSoftmax_predict_proba,
          wrapSklearnBinary_predict_proba, npGet2, h0]
  | some row =>
      cases h1 : row.get? 1 with
      | none =>
          right
          refine ⟨Or.inr ⟨row, rfl, h1⟩,
            "index out of bounds for axis 1", ?_, ?_⟩ <;>
            simp only [wrapKerasSoftmax_predict_proba,
              wrapSklearnBinary_predict_proba, npGet2, h0, h1]
      | some v =>
          left
          refine ⟨row, v, rfl, h1, ?_, ?_⟩ <;>
            simp only [wrapKerasSoftmax_predict_proba,
              wrapSklearnBinary_predict_proba, npGet2, h0, h1]

/-- C9 counterexample: on the empty 1-dimensional array (a well-formed
finite input), FakeImageModel.predict_proba computes np.mean of an empty
array, which is NaN in numpy (modelled none); NaN propagates through the
modulo and division, so the returned value is NaN, not a number in
[0, 1]. -/
theorem fake_image_empty_mean_cex :
    FakeImageModel.predict_proba (NDArray.arr []) = none := by
  rfl

/-- C9 amended: whenever predict_proba returns a defined number, that
number lies in [0, 1]: unconditionally for the synthetic variants
FakeImageModel and FakeRiskModel (the only undefined case is the NaN mean
of an input with no entries), and for the Keras softmax adapter whenever
the wrapped model returns rows of class probabilities in [0, 1] (the
softmax head built in ModelRegistry.image_model guarantees this). -/
theorem predict_proba_in_unit_interval :
    (∀ X p, FakeImageModel.predict_proba X = some p → 0 ≤ p ∧ p ≤ 1) ∧
    (∀ X p, FakeRiskModel.predict_proba X = some p → 0 ≤ p ∧ p ≤ 1) ∧
    (∀ y p, (∀ row ∈ y, ∀ v ∈ row, 0 ≤ v ∧ v ≤ 1) →
        wrapKerasSoftmax_predict_proba y = Except.ok p →
        0 ≤ p ∧ p ≤ 1) := by
  refine ⟨?_, ?_, ?_⟩
  · intro X p h
    simp only [FakeImageModel.predict_proba] at h
    split at h
    · exact absurd h (by simp)
    · split at h
      · exact absurd h (by simp)
      · rename_i m _
        simp only [Option.some.injEq] at h
        subst h
        have h0 := pymod_nonneg m 100 (by norm_num)
        have h1 := pymod_lt m 100 (by norm_num)
        constructor
        · positivity
        · nlinarith
  · intro X p h
    simp only [FakeRiskModel.predict_proba] at h
    split at h
    · exact absurd h (by simp)
    · rename_i x _
      simp only [Option.some.injEq] at h
      subst h
      have h0 := pymod_nonneg x.sumq 50 (by norm_num)
      have h1 := pymod_lt x.sumq 50 (by norm_num)
      constructor
      · apply le_min (by norm_num)
        nlinarith
      · calc min ((99:ℚ)/100) (2/10 + (1/100) * pymod x.sumq 50)
              ≤ 99/100 := min_le_left _ _
          _ ≤ 1 := by norm_num
  · intro y p hvalid h
    simp only [wrapKerasSoftmax_predict_proba, npGet2] at h
    split at h
    · exact absurd h (by simp)
    · rename_i row h0
      split at h
      · exact absurd h (by simp)
      · rename_i v h1
        simp only [Except.ok.injEq] at h
        subst h
        exact hvalid row (List.get?_mem h0) v (List.get?_mem h1)

/-- Witness for the amended C9 theorem: FakeImageModel on the scalar
array 5.0 returns 0.05, FakeRiskModel on the same input returns 0.25,
and the Keras adapter on the softmax row [0.3, 0.7] returns 0.7; all lie
in [0, 1]. -/
theorem predict_proba_in_unit_interval_witness :
    ((0:ℚ) ≤ 1/20 ∧ (1/20:ℚ) ≤ 1) ∧
      ((0:ℚ) ≤ 1/4 ∧ (1/4:ℚ) ≤ 1) ∧
      ((0:ℚ) ≤ 7/10 ∧ (7/10:ℚ) ≤ 1) :=
  ⟨predict_proba_in_unit_interval.1 (NDArray.scalar 5) (1/20)
      (by norm_num [FakeImageModel.predict_proba, NDArray.ndim,
        NDArray.mean, NDArray.count, NDArray.sumq, pymod]),
    predict_proba_in_unit_interval.2.1 (NDArray.scalar 5) (1/4)
      (by norm_num [FakeRiskModel.predict_proba, NDArray.ndim,
        NDArray.sumq, pymod]),
    predict_proba_in_unit_interval.2.2 [[3/10, 7/10]] (7/10)
      (by norm_num)
      (by norm_num [wrapKerasSoftmax_predict_proba, npGet2])⟩

/-- C10: the synthetic variants depend only on the first sample of a
batched input. FakeImageModel on a 4-dimensional batch equals
FakeImageModel on the first (H, W, C) sample of the batch, and
FakeRiskModel on a 2-dimensional (multi-row) array equals FakeRiskModel
on its first row. -/
theorem fake_predict_first_sample :
    (∀ (t : NDArray) (rest : List NDArray),
        (NDArray.arr (t :: rest)).ndim = 4 →
        FakeImageModel.predict_proba (NDArray.arr (t :: rest))
          = FakeImageModel.predict_proba t) ∧
    (∀ (r : NDArray) (rest : List NDArray),
        (NDArray.arr (r :: rest)).ndim = 2 →
        FakeRiskModel.predict_proba (NDArray.arr (r :: rest))
          = FakeRiskModel.predict_proba r) := by
  constructor
  · intro t rest h
    simp only [NDArray.ndim] at h
    have ht : t.ndim = 3 := by omega
    simp [FakeImageModel.predict_proba, NDArray.ndim, NDArray.getFirst, ht]
  · intro r rest h
    simp only [NDArray.ndim] at h
    have hr : r.ndim = 1 := by omega
    simp [FakeRiskModel.predict_proba, NDArray.ndim, NDArray.getFirst, hr]

/-- Witness for C10: a concrete 4-dimensional batch of two 1 x 1 x 1
samples for the image fake and a concrete 2 x 2 matrix for the risk
fake. -/
theorem fake_predict_first_sample_witness :
    FakeImageModel.predict_proba
        (NDArray.arr [NDArray.arr [NDArray.arr [NDArray.arr [NDArray.scalar 3]]],
          NDArray.arr [NDArray.arr [NDArray.arr [NDArray.scalar 7]]]])
      = FakeImageModel.predict_proba
          (NDArray.arr [NDArray.arr [NDArray.arr [NDArray.scalar 3]]]) ∧
    FakeRiskModel.predict_proba
        (NDArray.arr [NDArray.arr [NDArray.scalar 1, NDArray.scalar 2],
          NDArray.arr [NDArray.scalar 4, NDArray.scalar 8]])
      = FakeRiskModel.predict_proba
          (NDArray.arr [NDArray.scalar 1, NDArray.scalar 2]) :=
  ⟨fake_predict_first_sample.1
      (NDArray.arr [NDArray.arr [NDArray.arr [NDArray.scalar 3]]])
      [NDArray.arr [NDArray.arr [NDArray.arr [NDArray.scalar 7]]]]
      (by rfl),
    fake_predict_first_sample.2
      (NDArray.arr [NDArray.scalar 1, NDArray.scalar 2])
      [NDArray.arr [NDArray.scalar 4, NDArray.scalar 8]]
      (by rfl)⟩

/-- Model instances handed out by the registry. Each instance carries the
value of the registry construction counter at which it was built, so that
two distinct constructions are distinguishable and returning the
identical previously-built instance is expressible in the embedding. -/
inductive ProbModel where
  | fakeImage (id : ℕ)
  | fakeRisk (id : ℕ)
  | kerasWrap (id : ℕ) (loadedWeights : Option String)
  | sklearnWrap (id : ℕ) (file : String)
deriving Repr, DecidableEq

/-- Relevant Django settings read by the registry, with the filesystem
abstracted as a predicate on paths. -/
structure Settings where
  enable_fake_models : Bool
  model_dir : String
  fileExists : String → Bool

/-- Class-level mutable state of ModelRegistry (the two cached singleton
references), plus the construction counter used to give instances their
identity. -/
structure RegistryState where
  image_model : Option ProbModel := none
  risk_model : Option ProbModel := none
  nextId : ℕ := 0
deriving Repr, DecidableEq

/-- Ordered image-weight filename candidates, as in
ModelRegistry._IMAGE_WEIGHT_CANDIDATES. -/
def imageWeightCandidates : List String :=
  ["image_model.keras", "image_model.h5", "image_model.weights.h5"]

/-- Fixed risk-model filename, as in ModelRegistry._RISK_MODEL_FILENAME. -/
def riskModelFilename : String := "risk_model.joblib"

/-- Message of the FileNotFoundError raised for a missing risk model. -/
def riskModelNotFoundMsg (path : String) : String :=
  "Risk model not found at " ++ path ++
    ". Either set ENABLE_FAKE_MODELS=true or supply a trained model."

/-- Embeds ModelRegistry.image_model from services/registry.py: returns
the cached instance when present; otherwise constructs the fake model or
the Keras-backed model (loading the first existing candidate weight file,
or none) and caches it. Construction is modelled by consuming one value
of the construction counter. -/
def ModelRegistry.image_model (cfg : Settings) (s : RegistryState) :
    ProbModel × RegistryState :=
  match s.image_model with
  | some m => (m, s)
  | none =>
      if cfg.enable_fake_models then
        let m := ProbModel.fakeImage s.nextId
        (m, { s with image_model := some m, nextId := s.nextId + 1 })
      else
        let weights_path :=
          (imageWeightCandidates.map
            (fun n => cfg.model_dir ++ "/" ++ n)).find? cfg.fileExists
        let m := ProbModel.kerasWrap s.nextId weights_path
        (m, { s with image_model := some m, nextId := s.nextId + 1 })

/-- Embeds ModelRegistry.risk_model from services/registry.py: returns
the cached instance when present; otherwise constructs the fake model,
or loads the sklearn model from the fixed filename, raising
FileNotFoundError (the Python builtin, left uncaught) when that file does
not exist. A raise leaves the cached state unchanged. -/
def ModelRegistry.risk_model (cfg : Settings) (s : RegistryState) :
    Except PyExc (ProbModel × RegistryState) :=
  match s.risk_model with
  | some m => Except.ok (m, s)
  | none =>
      if cfg.enable_fake_models then
        let m := ProbModel.fakeRisk s.nextId
        Except.ok (m, { s with risk_model := some m, nextId := s.nextId + 1 })
      else
        let path := cfg.model_dir ++ "/" ++ riskModelFilename
        if cfg.fileExists path then
          let m := ProbModel.sklearnWrap s.nextId path
          Except.ok (m,
            { s with risk_model := some m, nextId := s.nextId + 1 })
        else
          Except.error (PyExc.fileNotFoundError (riskModelNotFoundMsg path))

/-- C5: for both capabilities, once a resolver call has returned an
instance, calling the resolver again on the resulting state returns the
identical instance (same construction-counter identity) and leaves the
state, including the construction counter, unchanged: construction
happens only on the first call and is never repeated. -/
theorem registry_resolver_idempotent :
    (∀ (cfg : Settings) (s s1 : RegistryState) (m : ProbModel),
        ModelRegistry.image_model cfg s = (m, s1) →
        ModelRegistry.image_model cfg s1 = (m, s1)) ∧
    (∀ (cfg : Settings) (s s1 : RegistryState) (m : ProbModel),
        ModelRegistry.risk_model cfg s = Except.ok (m, s1) →
        ModelRegistry.risk_model cfg s1 = Except.ok (m, s1)) := by
  constructor
  · intro cfg s s1 m h
    have hc : s1.image_model = some m := by
      simp only [ModelRegistry.image_model] at h
      split at h
      · rename_i m0 hm0
        obtain ⟨rfl, rfl⟩ := Prod.mk.injEq .. ▸ h
        simpa using hm0
      · split at h <;>
          · obtain ⟨rfl, rfl⟩ := Prod.mk.injEq .. ▸ h
            rfl
    simp only [ModelRegistry.image_model, hc]
  · intro cfg s s1 m h
    have hc : s1.risk_model = some m := by
      simp only [ModelRegistry.risk_model] at h
      split at h
      · rename_i m0 hm0
        simp only [Except.ok.injEq] at h
        obtain ⟨rfl, rfl⟩ := Prod.mk.injEq .. ▸ h
        simpa using hm0
      · split at h
        · simp only [Except.ok.injEq] at h
          obtain ⟨rfl, rfl⟩ := Prod.mk.injEq .. ▸ h
          rfl
        · split at h
          · simp only [Except.ok.injEq] at h
            obtain ⟨rfl, rfl⟩ := Prod.mk.injEq .. ▸ h
            rfl
          · exact absurd h (by simp)
    simp only [ModelRegistry.risk_model, hc]

/-- Witness for C5: with fake models enabled and a fresh registry state,
the first call builds instance 0 of each capability and the second call
returns it unchanged. -/
theorem registry_resolver_idempotent_witness :
    ModelRegistry.image_model
        { enable_fake_models := true, model_dir := "models",
          fileExists := fun _ => false }
        { image_model := some (ProbModel.fakeImage 0), risk_model := none,
          nextId := 1 }
      = (ProbModel.fakeImage 0,
          { image_model := some (ProbModel.fakeImage 0), risk_model := none,
            nextId := 1 }) ∧
    ModelRegistry.risk_model
        { enable_fake_models := true, model_dir := "models",
          fileExists := fun _ => false }
        { image_model := none, risk_model := some (ProbModel.fakeRisk 0),
          nextId := 1 }
      = Except.ok (ProbModel.fakeRisk 0,
          { image_model := none, risk_model := some (ProbModel.fakeRisk 0),
            nextId := 1 }) :=
  ⟨registry_resolver_idempotent.1
      { enable_fake_models := true, model_dir := "models",
        fileExists := fun _ => false } {} _ _ rfl,
    registry_resolver_idempotent.2
      { enable_fake_models := true, model_dir := "models",
        fileExists := fun _ => false } {} _ _ rfl⟩

/-- C6 counterexample: with the synthetic flag off and no risk-model file
present, the first resolution of the risk model fails with the Python
builtin FileNotFoundError, not with a typed ModelNotFoundError; no
ModelNotFoundError type exists in the code. -/
theorem risk_model_missing_not_typed_cex :
    ModelRegistry.risk_model
        { enable_fake_models := false, model_dir := "models",
          fileExists := fun _ => false } {}
      = Except.error (PyExc.fileNotFoundError
          (riskModelNotFoundMsg ("models" ++ "/" ++ riskModelFilename))) ∧
    PyExc.isModelNotFoundError
        (PyExc.fileNotFoundError
          (riskModelNotFoundMsg ("models" ++ "/" ++ riskModelFilename)))
      = false := by
  constructor
  · rfl
  · rfl

/-- C6 amended: with the synthetic flag off and the risk-model file
absent, resolving the risk model on a state that has not yet cached it
(the first resolution; module import builds only the initial state and
touches no file) raises FileNotFoundError with the documented message;
the cache is not populated. -/
theorem risk_model_missing_file_raises
    (cfg : Settings) (s : RegistryState)
    (hfake : cfg.enable_fake_models = false)
    (hfirst : s.risk_model = none)
    (hmiss : cfg.fileExists (cfg.model_dir ++ "/" ++ riskModelFilename)
      = false) :
    ModelRegistry.risk_model cfg s =
      Except.error (PyExc.fileNotFoundError
        (riskModelNotFoundMsg (cfg.model_dir ++ "/" ++ riskModelFilename))) := by
  simp only [ModelRegistry.risk_model, hfirst, hfake, hmiss]
  simp

/-- Witness for the amended C6 theorem at a concrete configuration with
no files on disk. -/
theorem risk_model_missing_file_raises_witness :
    ModelRegistry.risk_model
        { enable_fake_models := false, model_dir := "m",
          fileExists := fun _ => false } {}
      = Except.error (PyExc.fileNotFoundError
          (riskModelNotFoundMsg ("m" ++ "/" ++ riskModelFilename))) :=
  risk_model_missing_file_raises
    { enable_fake_models := false, model_dir := "m",
      fileExists := fun _ => false } {} rfl rfl rfl

/-- C7: with the synthetic flag off and no candidate image-weight file
present, resolving the image model does not raise (the function is total
and returns a model): it returns the Keras-backed model with no loaded
weights (the freshly initialized, untrained head) and caches it. -/
theorem image_model_soft_fallback
    (cfg : Settings) (s : RegistryState)
    (hfake : cfg.enable_fake_models = false)
    (hfirst : s.image_model = none)
    (hmiss : ∀ n ∈ imageWeightCandidates,
      cfg.fileExists (cfg.model_dir ++ "/" ++ n) = false) :
    ModelRegistry.image_model cfg s =
      (ProbModel.kerasWrap s.nextId none,
        { s with
          image_model := some (ProbModel.kerasWrap s.nextId none),
          nextId := s.nextId + 1 }) := by
  have hfind : (imageWeightCandidates.map
      (fun n => cfg.model_dir ++ "/" ++ n)).find? cfg.fileExists = none := by
    rw [List.find?_eq_none]
    intro p hp
    rcases List.mem_map.mp hp with ⟨n, hn, rfl⟩
    simp [hmiss n hn]
  simp only [ModelRegistry.image_model, hfirst, hfake, hfind]
  simp

/-- Witness for C7 at a concrete configuration with no files on disk. -/
theorem image_model_soft_fallback_witness :
    ModelRegistry.image_model
        { enable_fake_models := false, model_dir := "m",
          fileExists := fun _ => false } {}
      = (ProbModel.kerasWrap 0 none,
          { image_model := some (ProbModel.kerasWrap 0 none),
            risk_model := none, nextId := 1 }) :=
  image_model_soft_fallback
    { enable_fake_models := false, model_dir := "m",
      fileExists := fun _ => false } {} rfl rfl (fun _ _ => rfl)

end BreastRisk
